import Mathlib

/-!
Verification of the `AudioPlayer` widget (src/unnamed/part_000) of syberke/myApp.

The widget is a React component wrapping an expo-av playback handle.  We embed
its event handlers (`loadAudio`, `playPause`, `restart`, `seekTo`, the progress
bar `onPress`, the `setOnPlaybackStatusUpdate` handler, the unmount cleanup and
`formatTime`) as pure Lean functions over an explicit component state.

Modelling conventions, matching the source:
* React state hooks become fields of `PlayerState`; each handler reads the
  state snapshot captured by its closure and the `setX` calls produce the next
  state, so a handler is a function `PlayerState → PlayerState × List AVCall`
  where the list is the sequence of platform (expo-av) calls it issues.
* An `Audio.Sound` handle is modelled as a `Nat` identifier.
* `await` calls that can reject are given explicit Boolean/Option outcome
  parameters chosen by the environment (e.g. `createResult = none` models
  `Audio.Sound.createAsync` throwing); a `try/catch` then follows the source's
  control flow for that outcome.
* JavaScript truthiness tests on `number | null` values (`if (!milliseconds)`,
  `if (sound && duration)`, `status.positionMillis || null`) are translated
  with explicit `Option Nat` matches in which `some 0` is falsy.
* The component's `useEffect` with an empty dependency array runs once after
  the first render, so its cleanup closure captures the state of that first
  render (`initState`); `unmountCalls` reflects exactly that closure.
-/

/-- Successful (`isLoaded: true`) playback status delivered by expo-av. -/
structure AVStatusLoaded where
  durationMillis : Option Nat
  positionMillis : Option Nat
  isPlaying : Bool
  didJustFinish : Bool
  deriving DecidableEq, Repr

/-- Playback status: expo-av's discriminated union on `isLoaded`. -/
inductive AVStatus where
  | loaded (ls : AVStatusLoaded)
  | notLoaded (error : Option String)
  deriving DecidableEq, Repr

/-- Platform (expo-av) calls issued by the widget's handlers. -/
inductive AVCall where
  | unloadAsync (handle : Nat)
  | createAsync (uri : String)
  | setOnPlaybackStatusUpdate (handle : Nat)
  | playAsync (handle : Nat)
  | pauseAsync (handle : Nat)
  | setPositionAsync (handle : Nat) (positionMillis : ℚ)
  deriving DecidableEq, Repr

/-- The widget's React state hooks (src lines 24-29). -/
structure PlayerState where
  sound : Option Nat
  isPlaying : Bool
  isLoading : Bool
  duration : Option Nat
  position : Option Nat
  error : Option String
  deriving DecidableEq, Repr

/-- Initial state of the hooks at the first render (src lines 24-29). -/
def initState : PlayerState :=
  { sound := none, isPlaying := false, isLoading := false,
    duration := none, position := none, error := none }

/-- JavaScript `x || null` on a `number | null | undefined`: `0` is falsy. -/
def truthyOpt : Option Nat → Option Nat
  | some 0 => none
  | o => o

/-- The `loadAudio` handler (src lines 95-145).  `unloadThrows` is the outcome
of `sound.unloadAsync()` on the previous handle (only reached when a previous
sound exists); `createResult` is `some newHandle` when
`Audio.Sound.createAsync` succeeds and `none` when it throws. -/
def loadAudio (s : PlayerState) (fileUrl : String) (unloadThrows : Bool)
    (createResult : Option Nat) : PlayerState × List AVCall :=
  match s.sound with
  | some h =>
    if unloadThrows then
      ({ s with isLoading := false, error := some "Gagal memuat file audio" },
       [.unloadAsync h])
    else
      match createResult with
      | some nh =>
        ({ s with sound := some nh, isLoading := false, error := none },
         [.unloadAsync h, .createAsync fileUrl, .setOnPlaybackStatusUpdate nh])
      | none =>
        ({ s with sound := none, isLoading := false,
                  error := some "Gagal memuat file audio" },
         [.unloadAsync h, .createAsync fileUrl])
  | none =>
    match createResult with
    | some nh =>
      ({ s with sound := some nh, isLoading := false, error := none },
       [.createAsync fileUrl, .setOnPlaybackStatusUpdate nh])
    | none =>
      ({ s with sound := none, isLoading := false,
                error := some "Gagal memuat file audio" },
       [.createAsync fileUrl])

/-- The `playPause` handler (src lines 147-168).  When no sound is loaded it
awaits `loadAudio` and returns; otherwise it issues exactly one of
`pauseAsync`/`playAsync`, whose rejection (`playbackThrows`) is caught and
surfaced. -/
def playPause (s : PlayerState) (fileUrl : String) (unloadThrows : Bool)
    (createResult : Option Nat) (playbackThrows : Bool) :
    PlayerState × List AVCall :=
  match s.sound with
  | none => loadAudio s fileUrl unloadThrows createResult
  | some h =>
    if s.isPlaying then
      if playbackThrows then
        ({ s with error := some "Gagal memutar audio" }, [.pauseAsync h])
      else (s, [.pauseAsync h])
    else
      if playbackThrows then
        ({ s with error := some "Gagal memutar audio" }, [.playAsync h])
      else (s, [.playAsync h])

/-- The `restart` handler (src lines 170-182): seek to 0, then `playAsync`
when the widget's `isPlaying` flag is false.  `seekThrows`/`playThrows` are
the outcomes of the two awaited calls; both rejections land in the same
`catch`. -/
def restart (s : PlayerState) (seekThrows playThrows : Bool) :
    PlayerState × List AVCall :=
  match s.sound with
  | none => (s, [])
  | some h =>
    if seekThrows then
      ({ s with error := some "Gagal mengulang audio" }, [.setPositionAsync h 0])
    else if s.isPlaying then
      (s, [.setPositionAsync h 0])
    else if playThrows then
      ({ s with error := some "Gagal mengulang audio" },
       [.setPositionAsync h 0, .playAsync h])
    else
      (s, [.setPositionAsync h 0, .playAsync h])

/-- The `seekTo` handler (src lines 184-193): guarded by the truthiness of
`sound && duration`, issues `setPositionAsync(duration * percentage)`.  Its
`catch` only logs: the state is returned unchanged whether or not the seek
rejects (`seekThrows`). -/
def seekTo (s : PlayerState) (percentage : ℚ) (seekThrows : Bool) :
    PlayerState × List AVCall :=
  match s.sound, s.duration with
  | some h, some d =>
    if d = 0 then (s, [])
    else (s, [.setPositionAsync h ((d : ℚ) * percentage)])
  | _, _ => (s, [])

/-- The progress bar `onPress` (src lines 274-279): `percentage = locationX /
(width - 64)` clamped to [0,1] before calling `seekTo`.  `screenWidth` is
`Dimensions.get('window').width`. -/
def onProgressPress (s : PlayerState) (screenWidth locationX : ℚ)
    (seekThrows : Bool) : PlayerState × List AVCall :=
  let progressBarWidth := screenWidth - 64
  let percentage := locationX / progressBarWidth
  seekTo s (max 0 (min 1 percentage)) seekThrows

/-- The `setOnPlaybackStatusUpdate` handler installed by `loadAudio` (src
lines 118-137).  `cbPresent` records whether the host supplied the optional
`onPlaybackStatusUpdate` prop; the second component is the status forwarded
to it (if it was invoked). -/
def onPlaybackStatus (cbPresent : Bool) (s : PlayerState) (st : AVStatus) :
    PlayerState × Option AVStatus :=
  match st with
  | .loaded ls =>
    let s1 : PlayerState :=
      { s with duration := truthyOpt ls.durationMillis,
               position := truthyOpt ls.positionMillis,
               isPlaying := ls.isPlaying }
    let forwarded := if cbPresent then some st else none
    if ls.didJustFinish then
      ({ s1 with isPlaying := false, position := some 0 }, forwarded)
    else (s1, forwarded)
  | .notLoaded e =>
    match e with
    | some _ => ({ s with error := some "Error loading audio" }, none)
    | none => (s, none)

/-- The unmount cleanup returned by the first `useEffect` (src lines 55-59),
as a function of the state snapshot its closure captured. -/
def unmountCleanup (snapshot : PlayerState) : List AVCall :=
  match snapshot.sound with
  | some h => [.unloadAsync h]
  | none => []

/-- The calls the cleanup actually issues on unmount: the effect's dependency
array is `[]` (src line 60), so it runs once after the first render and its
cleanup closure captured `initState`, in which `sound` is `null`. -/
def unmountCalls : List AVCall := unmountCleanup initState

/-- JavaScript `s.padStart(2, '0')`. -/
def padStart2 (s : String) : String :=
  if s.length ≥ 2 then s else String.mk (List.replicate (2 - s.length) '0') ++ s

/-- The `formatTime` helper (src lines 195-201).  `!milliseconds` is true for
both `null` and `0`. -/
def formatTime (milliseconds : Option Nat) : String :=
  match milliseconds with
  | none => "0:00"
  | some ms =>
    if ms = 0 then "0:00"
    else
      let seconds := ms / 1000
      let minutes := seconds / 60
      let remainingSeconds := seconds % 60
      toString minutes ++ ":" ++ padStart2 (toString remainingSeconds)

/-- Spec-side statement of C10, written from the claim's words: minutes,
a colon, and the two-digit zero-padded remainder seconds of `floor(ms/1000)`;
`null` and `0` both give "0:00". -/
def formatTimeSpec (milliseconds : Option Nat) : String :=
  match milliseconds with
  | none => "0:00"
  | some ms =>
    if ms = 0 then "0:00"
    else
      let totalSeconds := ms / 1000
      let r := totalSeconds % 60
      toString (totalSeconds / 60) ++ ":" ++
        (if r < 10 then "0" ++ toString r else toString r)

/-- Minimal model of the external expo-av handle owned by the widget (spec
glossary: "opaque resource representing a loaded, platform-managed audio
stream"): whether it is playing and its position.  `none` means no handle is
loaded. -/
structure PlatformSound where
  playing : Bool
  position : ℚ
  deriving DecidableEq, Repr

/-- Effect of one platform call on the loaded handle: `createAsync` with
`shouldPlay: false` (src line 109) yields a paused handle at position 0;
`setPositionAsync` seeks without changing the play state. -/
def applyCall (p : Option PlatformSound) : AVCall → Option PlatformSound
  | .unloadAsync _ => none
  | .createAsync _ => some { playing := false, position := 0 }
  | .setOnPlaybackStatusUpdate _ => p
  | .playAsync _ => p.map fun q => { q with playing := true }
  | .pauseAsync _ => p.map fun q => { q with playing := false }
  | .setPositionAsync _ pos => p.map fun q => { q with position := pos }

/-- Effect of a sequence of platform calls. -/
def applyCalls (p : Option PlatformSound) (cs : List AVCall) :
    Option PlatformSound :=
  cs.foldl applyCall p

/-- User/platform events driving the widget, each carrying the outcomes of
the platform calls its handler awaits. -/
inductive Event where
  | pressPlayPause (fileUrl : String) (unloadThrows : Bool)
      (createResult : Option Nat) (playbackThrows : Bool)
  | pressRestart (seekThrows playThrows : Bool)
  | tapProgress (screenWidth locationX : ℚ) (seekThrows : Bool)
  | statusUpdate (cbPresent : Bool) (st : AVStatus)

/-- Next component state after an event is handled. -/
def stepState (s : PlayerState) : Event → PlayerState
  | .pressPlayPause url u cr pt => (playPause s url u cr pt).1
  | .pressRestart st pt => (restart s st pt).1
  | .tapProgress w x th => (onProgressPress s w x th).1
  | .statusUpdate cb st => (onPlaybackStatus cb s st).1

/-- States of the widget reachable from mount by any sequence of events. -/
inductive Reachable : PlayerState → Prop
  | init : Reachable initState
  | step {s : PlayerState} (e : Event) : Reachable s → Reachable (stepState s e)

/-! Helper lemmas: which handlers can change the `sound` field. -/

theorem restart_sound_eq (s : PlayerState) (a b : Bool) :
    (restart s a b).1.sound = s.sound := by
  cases hs : s.sound <;> simp [restart, hs]
  split_ifs <;> simp [hs]

theorem seekTo_sound_eq (s : PlayerState) (p : ℚ) (th : Bool) :
    (seekTo s p th).1.sound = s.sound := by
  cases hs : s.sound <;> cases hd : s.duration <;> simp [seekTo, hs, hd]
  split_ifs <;> simp [hs]

theorem onProgressPress_sound_eq (s : PlayerState) (w x : ℚ) (th : Bool) :
    (onProgressPress s w x th).1.sound = s.sound := by
  simp [onProgressPress, seekTo_sound_eq]

theorem onPlaybackStatus_sound_eq (cb : Bool) (s : PlayerState) (st : AVStatus) :
    (onPlaybackStatus cb s st).1.sound = s.sound := by
  cases st with
  | loaded ls => simp only [onPlaybackStatus]; split <;> rfl
  | notLoaded e => cases e <;> rfl

theorem playPause_loaded_sound_eq (s : PlayerState) (url : String) (u pt : Bool)
    (cr : Option Nat) (h : Nat) (hs : s.sound = some h) :
    (playPause s url u cr pt).1.sound = some h := by
  simp only [playPause, hs]
  split_ifs <;> simp [hs]

/-- Zero-padding of `toString r` for the seconds field, checked for every
value the remainder can take. -/
theorem padStart2_toString_eq :
    ∀ r, r < 60 →
      padStart2 (toString r) = if r < 10 then "0" ++ toString r else toString r := by
  decide

/-- C10: `formatTime` produces minutes, a colon, and the two-digit
zero-padded remainder seconds of `floor(ms/1000)`, and returns "0:00" both
for `null` and for `0` (`!milliseconds` is true for both). -/
theorem formatTime_matches_spec : ∀ o, formatTime o = formatTimeSpec o := by
  intro o
  cases o with
  | none => rfl
  | some ms =>
    by_cases h : ms = 0
    · subst h; rfl
    · have hr : ms / 1000 % 60 < 60 := Nat.mod_lt _ (by norm_num)
      simp only [formatTime, formatTimeSpec, if_neg h]
      rw [padStart2_toString_eq _ hr]

/-- C1: the code contradicts the claim.  After mounting and a successful load
(the play press creates handle 0), the widget holds `sound = some 0`, yet the
unmount cleanup issues no call at all: the cleanup closure of the `useEffect`
with dependency array `[]` captured the first render's `sound = null`, so no
`unloadAsync` is ever issued on unmount and the loaded handle leaks. -/
theorem unmount_cleanup_ignores_loaded_sound :
    (stepState initState (.pressPlayPause "file.mp3" false (some 0) false)).sound
      = some 0 ∧
    ∀ h, AVCall.unloadAsync h ∉ unmountCalls := by
  refine ⟨rfl, fun h hmem => ?_⟩
  simp [unmountCalls, unmountCleanup, initState] at hmem

/-- C2 counterexample: pressing play at the initial state (no sound loaded)
with a successful load (handle 0) ends with the handle created but the
platform sound not playing: no `playAsync` is issued during the press
(`loadAudio` is created with `shouldPlay: false` and `playPause` returns
right after awaiting it). -/
theorem playPause_unloaded_no_autoplay_cex :
    (playPause initState "file.mp3" false (some 0) false).1.sound = some 0 ∧
    AVCall.playAsync 0 ∉ (playPause initState "file.mp3" false (some 0) false).2 ∧
    applyCalls none (playPause initState "file.mp3" false (some 0) false).2 =
      some { playing := false, position := 0 } := by
  decide

/-- C2 amended: pressing play with no loaded resource loads the resource
(installing the status handler) and returns; playback does not start in that
press, the platform handle ending paused at position 0. -/
theorem playPause_unloaded_loads_without_playing (s : PlayerState)
    (url : String) (u pt : Bool) (nh : Nat) (hs : s.sound = none) :
    (playPause s url u (some nh) pt).1.sound = some nh ∧
    (playPause s url u (some nh) pt).2 =
      [.createAsync url, .setOnPlaybackStatusUpdate nh] ∧
    applyCalls none (playPause s url u (some nh) pt).2 =
      some { playing := false, position := 0 } := by
  simp [playPause, hs, loadAudio, applyCalls, applyCall]

/-- C2 amended, witness at the initial state. -/
theorem playPause_unloaded_loads_without_playing_witness :
    (playPause initState "f.mp3" false (some 7) true).1.sound = some 7 ∧
    (playPause initState "f.mp3" false (some 7) true).2 =
      [.createAsync "f.mp3", .setOnPlaybackStatusUpdate 7] ∧
    applyCalls none (playPause initState "f.mp3" false (some 7) true).2 =
      some { playing := false, position := 0 } :=
  playPause_unloaded_loads_without_playing initState "f.mp3" false true 7 rfl

/-- C3: pressing restart with a loaded sound seeks the platform position to
zero, and when the widget was already playing the platform sound keeps
playing (only a seek is issued; `playAsync` is issued exactly when the
playing flag is false). -/
theorem restart_seeks_zero_and_stays_playing (s : PlayerState) (h : Nat)
    (plat : PlatformSound) (hs : s.sound = some h) :
    ∃ plat', applyCalls (some plat) (restart s false false).2 = some plat' ∧
      plat'.position = 0 ∧
      (s.isPlaying = true → plat.playing = true → plat'.playing = true) := by
  by_cases hp : s.isPlaying
  · refine ⟨{ plat with position := 0 }, ?_, rfl, fun _ hpl => hpl⟩
    simp [restart, hs, hp, applyCalls, applyCall]
  · refine ⟨{ playing := true, position := 0 }, ?_, rfl,
      fun hpl => absurd hpl hp⟩
    simp [restart, hs, hp, applyCalls, applyCall]

/-- C3 witness: a loaded and playing widget over a playing platform handle at
position 1234. -/
theorem restart_seeks_zero_and_stays_playing_witness :
    ∃ plat', applyCalls (some { playing := true, position := 1234 })
        (restart { initState with sound := some 0, isPlaying := true }
          false false).2 = some plat' ∧
      plat'.position = 0 ∧
      (({ initState with sound := some 0, isPlaying := true } :
          PlayerState).isPlaying = true →
        ({ playing := true, position := 1234 } : PlatformSound).playing = true →
        plat'.playing = true) :=
  restart_seeks_zero_and_stays_playing
    { initState with sound := some 0, isPlaying := true } 0
    { playing := true, position := 1234 } rfl

/-- C4 counterexample: with a loaded sound and a known 5000 ms duration, a
progress-bar seek whose `setPositionAsync` rejects issues the call but leaves
the error state `none`: the seek failure is only logged, never surfaced. -/
theorem seek_failure_not_surfaced_cex :
    (seekTo { initState with sound := some 0, duration := some 5000 }
        (1/2) true).2 = [.setPositionAsync 0 2500] ∧
    (seekTo { initState with sound := some 0, duration := some 5000 }
        (1/2) true).1.error = none := by
  constructor
  · norm_num [seekTo]
  · decide

/-- C4 amended: load failures, play/pause failures and restart failures
(whether restart's seek rejects, or its play call rejects on a paused widget)
are each caught and surfaced as a non-null human-readable error message, and
every handler returns a state rather than propagating the exception; a
progress-bar seek failure however is caught and logged only, leaving the
widget state (its error string included) entirely unchanged. -/
theorem failures_surfaced_except_seek :
    (∀ s url u pt, s.sound = none →
      (playPause s url u none pt).1.error = some "Gagal memuat file audio") ∧
    (∀ s url u cr h, s.sound = some h →
      (playPause s url u cr true).1.error = some "Gagal memutar audio") ∧
    (∀ s h pt, s.sound = some h →
      (restart s true pt).1.error = some "Gagal mengulang audio") ∧
    (∀ s h, s.sound = some h → s.isPlaying = false →
      (restart s false true).1.error = some "Gagal mengulang audio") ∧
    (∀ s pct, (seekTo s pct true).1 = s) := by
  refine ⟨?_, ?_, ?_, ?_, ?_⟩
  · intro s url u pt hs
    simp [playPause, hs, loadAudio]
  · intro s url u cr h hs
    simp only [playPause, hs]
    split_ifs <;> rfl
  · intro s h pt hs
    simp [restart, hs]
  · intro s h hs hp
    simp [restart, hs, hp]
  · intro s pct
    cases hs : s.sound <;> cases hd : s.duration <;> simp [seekTo, hs, hd]
    split_ifs <;> rfl

/-- C4 amended, witness: a failing load from the initial state, a failing
restart seek on a loaded widget, and a failing restart play on a loaded,
paused widget. -/
theorem failures_surfaced_except_seek_witness :
    (playPause initState "u.mp3" false none false).1.error =
      some "Gagal memuat file audio" ∧
    (restart { initState with sound := some 3 } true false).1.error =
      some "Gagal mengulang audio" ∧
    (restart { initState with sound := some 3 } false true).1.error =
      some "Gagal mengulang audio" :=
  ⟨failures_surfaced_except_seek.1 initState "u.mp3" false false rfl,
   failures_surfaced_except_seek.2.2.1 { initState with sound := some 3 } 3
     false rfl,
   failures_surfaced_except_seek.2.2.2.1 { initState with sound := some 3 } 3
     rfl rfl⟩

/-- C5 counterexample: a status change with `isLoaded` false is delivered
while the host supplied the callback, yet the callback is not invoked: the
source only calls it inside the `status.isLoaded` branch. -/
theorem error_status_not_forwarded_cex :
    (onPlaybackStatus true initState (.notLoaded (some "boom"))).2 = none := rfl

/-- C5 amended: when the host supplies the callback, every loaded status is
forwarded to it unmodified, but statuses with `isLoaded` false are never
forwarded (and with no callback supplied nothing is forwarded). -/
theorem status_callback_forwards_loaded_unmodified :
    (∀ s ls, (onPlaybackStatus true s (.loaded ls)).2 = some (.loaded ls)) ∧
    (∀ s e, (onPlaybackStatus true s (.notLoaded e)).2 = none) ∧
    (∀ s st, (onPlaybackStatus false s st).2 = none) := by
  refine ⟨fun s ls => ?_, fun s e => ?_, fun s st => ?_⟩
  · simp only [onPlaybackStatus]
    split <;> rfl
  · cases e <;> rfl
  · cases st with
    | loaded ls =>
      simp only [onPlaybackStatus]
      split <;> rfl
    | notLoaded e => cases e <;> rfl

/-- C6: a tap at horizontal offset `locationX` on the progress track, with a
loaded sound and a known non-zero duration, seeks to `duration * offset`
where `offset = locationX / (width - 64)` clamped to [0,1]; the seek target
therefore lies in [0, duration]. -/
theorem progress_tap_seeks_clamped (s : PlayerState) (h d : Nat) (w x : ℚ)
    (hs : s.sound = some h) (hd : s.duration = some d) (hd0 : d ≠ 0)
    (hw : 64 < w) :
    (onProgressPress s w x false).2 =
      [.setPositionAsync h ((d : ℚ) * max 0 (min 1 (x / (w - 64))))] ∧
    0 ≤ (d : ℚ) * max 0 (min 1 (x / (w - 64))) ∧
    (d : ℚ) * max 0 (min 1 (x / (w - 64))) ≤ (d : ℚ) := by
  have hp0 : (0:ℚ) ≤ max 0 (min 1 (x / (w - 64))) := le_max_left _ _
  have hp1 : max 0 (min 1 (x / (w - 64))) ≤ 1 :=
    max_le zero_le_one (min_le_left _ _)
  have hdnn : (0:ℚ) ≤ (d:ℚ) := Nat.cast_nonneg d
  refine ⟨?_, mul_nonneg hdnn hp0, ?_⟩
  · simp [onProgressPress, seekTo, hs, hd, hd0]
  · calc (d:ℚ) * max 0 (min 1 (x / (w - 64))) ≤ (d:ℚ) * 1 :=
          mul_le_mul_of_nonneg_left hp1 hdnn
    _ = (d:ℚ) := mul_one _

/-- C6 witness: a tap at offset 100 on a 390-wide screen with a loaded sound
of duration 1000 ms. -/
theorem progress_tap_seeks_clamped_witness :
    (onProgressPress { initState with sound := some 0, duration := some 1000 }
        390 100 false).2 =
      [.setPositionAsync 0 ((1000 : ℚ) * max 0 (min 1 (100 / (390 - 64))))] ∧
    0 ≤ (1000 : ℚ) * max 0 (min 1 (100 / (390 - 64))) ∧
    (1000 : ℚ) * max 0 (min 1 (100 / (390 - 64))) ≤ (1000 : ℚ) :=
  progress_tap_seeks_clamped
    { initState with sound := some 0, duration := some 1000 } 0 1000 390 100
    rfl rfl (by decide) (by norm_num)

/-- C7: a loaded status with `didJustFinish` set leaves the handler with the
displayed position reset to zero and the playing flag false (the later
`setPosition(0)`/`setIsPlaying(false)` override the values copied from the
status). -/
theorem finished_status_resets_position_and_playing (cb : Bool)
    (s : PlayerState) (ls : AVStatusLoaded) (hf : ls.didJustFinish = true) :
    (onPlaybackStatus cb s (.loaded ls)).1.position = some 0 ∧
    (onPlaybackStatus cb s (.loaded ls)).1.isPlaying = false := by
  simp [onPlaybackStatus, hf]

/-- C7 witness: a finished status mid-track while playing. -/
theorem finished_status_resets_position_and_playing_witness :
    (onPlaybackStatus true initState
        (.loaded { durationMillis := some 5000, positionMillis := some 1200,
                   isPlaying := true, didJustFinish := true })).1.position =
      some 0 ∧
    (onPlaybackStatus true initState
        (.loaded { durationMillis := some 5000, positionMillis := some 1200,
                   isPlaying := true, didJustFinish := true })).1.isPlaying =
      false :=
  finished_status_resets_position_and_playing true initState _ rfl

/-- C8: a play/pause press with a loaded sound (and loading not in progress)
issues exactly one platform playback call: `pauseAsync` when the playing flag
is true, `playAsync` when it is false, and never both. -/
theorem playPause_loaded_exactly_one_call (s : PlayerState) (h : Nat)
    (url : String) (u pt : Bool) (cr : Option Nat)
    (hs : s.sound = some h) (hl : s.isLoading = false) :
    (s.isPlaying = true → (playPause s url u cr pt).2 = [.pauseAsync h]) ∧
    (s.isPlaying = false → (playPause s url u cr pt).2 = [.playAsync h]) := by
  constructor <;> intro hp <;> cases pt <;> simp [playPause, hs, hp]

/-- C8 witness: a paused loaded widget issues exactly `playAsync`. -/
theorem playPause_loaded_exactly_one_call_witness :
    (playPause { initState with sound := some 2 } "u.mp3" false none
        false).2 = [.playAsync 2] :=
  (playPause_loaded_exactly_one_call { initState with sound := some 2 } 2
      "u.mp3" false false none rfl rfl).2 rfl

/-- C9: over all reachable widget states, the sound handle changes only when
a play press's `Audio.Sound.createAsync` completes without throwing - the
handle goes from null to exactly the created handle - and a failed load
(createAsync throwing on a press with no loaded sound) leaves the handle
null with the error string set. -/
theorem sound_handle_invariant (s : PlayerState) (hr : Reachable s)
    (e : Event) :
    ((stepState s e).sound ≠ s.sound →
      s.sound = none ∧ ∃ url u pt nh,
        e = .pressPlayPause url u (some nh) pt ∧
        (stepState s e).sound = some nh) ∧
    (∀ url u pt, s.sound = none →
      (stepState s (.pressPlayPause url u none pt)).sound = none ∧
      (stepState s (.pressPlayPause url u none pt)).error =
        some "Gagal memuat file audio") := by
  constructor
  · intro hne
    cases e with
    | pressPlayPause url u cr pt =>
      cases hs : s.sound with
      | some h =>
        exact absurd ((playPause_loaded_sound_eq s url u pt cr h hs).trans
          hs.symm) hne
      | none =>
        cases cr with
        | some nh =>
          refine ⟨rfl, url, u, pt, nh, rfl, ?_⟩
          simp [stepState, playPause, hs, loadAudio]
        | none =>
          exact absurd (by simp [stepState, playPause, hs, loadAudio]) hne
    | pressRestart a b => exact absurd (restart_sound_eq s a b) hne
    | tapProgress w x th => exact absurd (onProgressPress_sound_eq s w x th) hne
    | statusUpdate cb st => exact absurd (onPlaybackStatus_sound_eq cb s st) hne
  · intro url u pt hs
    constructor <;> simp [stepState, playPause, hs, loadAudio]

/-- C9 witness: at the (reachable) initial state, a play press whose
createAsync throws leaves the handle null with the error string set. -/
theorem sound_handle_invariant_witness :
    (stepState initState (.pressPlayPause "u.mp3" false none false)).sound =
      none ∧
    (stepState initState (.pressPlayPause "u.mp3" false none false)).error =
      some "Gagal memuat file audio" :=
  (sound_handle_invariant initState Reachable.init
      (.pressPlayPause "u.mp3" false none false)).2 "u.mp3" false false rfl
